import Mathlib

/-
Verification development for the MomoGhar food-ordering app
(src/momo-order-app.jsx, second/authoritative copy of the components,
lines 1643-3863). JavaScript numbers are modelled as rationals; the
JavaScript truthiness test `v ? ... : ...` on a nullable number is
modelled by `truthyNum` (false exactly on null and 0). Randomness
(Math.random) and row ids generated by the database are passed as
explicit parameters. Persistence writes that can fail are modelled by
explicit Boolean failure flags.
-/

namespace Momo

/-- Order status values, as the string enum of the source
(ORDER_STATUSES plus the "cancelled" status used by STATUS_CONFIG). -/
inductive OrderStatus where
  | pending
  | accepted
  | cooking
  | ready
  | delivering
  | delivered
  | cancelled
deriving DecidableEq, Repr

/-- The ORDER_STATUSES array of the source (line 1735); it deliberately
omits "cancelled", exactly as the source list does. -/
def ORDER_STATUSES : List OrderStatus :=
  [.pending, .accepted, .cooking, .ready, .delivering, .delivered]

/-- A persisted row of the orders relation (supabase-schema.sql /
the insert at lines 2596-2608). Nullable numeric columns are Option. -/
structure OrderRow where
  id : Nat
  order_number : String
  user_id : Nat
  user_name : String
  total : ℚ
  status : OrderStatus
  payment_method : String
  payment_status : String
  special_instructions : String
  delivery_address : String
  lat : Option ℚ
  lng : Option ℚ
  driver_lat : Option ℚ
  driver_lng : Option ℚ
  created_at : Nat
deriving DecidableEq, Repr

/-- A persisted row of the order_items relation (insert at line 2620). -/
structure OrderItemRow where
  order_id : Nat
  menu_item_id : Nat
  name : String
  qty : Nat
  price : ℚ
deriving DecidableEq, Repr

/-- The backing store: the orders relation and the order_items relation. -/
structure DB where
  orders : List OrderRow
  order_items : List OrderItemRow
deriving DecidableEq, Repr

/-- A cart entry of CustomerApp (menu item spread plus qty). -/
structure CartItem where
  id : Nat
  name : String
  qty : Nat
  price : ℚ
deriving DecidableEq, Repr

/-- The customer profile fields relevant to ordering. -/
structure UserProfile where
  id : Nat
  name : String
  points : ℤ
deriving DecidableEq, Repr

/-- JavaScript truthiness of a nullable number: null and 0 are falsy. -/
def truthyNum : Option ℚ → Bool
  | none => false
  | some x => decide (x ≠ 0)

/-- Model of `v ? Number(v) : null` as used by normalizeOrder. -/
def jsNumOrNull (v : Option ℚ) : Option ℚ :=
  if truthyNum v then v else none

/-- generateOrderNumber (line 1747):
MOMO- followed by Math.floor(1000 + Math.random() * 9000), with the
Math.random() result passed explicitly as `r`. -/
def generateOrderNumber (r : ℚ) : String :=
  "MOMO-" ++ toString (Int.floor (1000 + r * 9000))

/-- cartTotal (line 2579): cart.reduce((sum, c) => sum + c.price * c.qty, 0). -/
def cartTotal (cart : List CartItem) : ℚ :=
  cart.foldl (fun sum c => sum + c.price * (c.qty : ℚ)) 0

/-- deliveryFee (line 2580): cartTotal >= 25 ? 0 : 3.99. -/
def deliveryFee (subtotal : ℚ) : ℚ :=
  if 25 ≤ subtotal then 0 else 399/100

/-- Lookup of the status of the order row with a given id. -/
def statusOf (db : DB) (orderId : Nat) : Option OrderStatus :=
  (db.orders.find? (fun o => o.id == orderId)).map (fun o => o.status)

/-- Lookup of the stored driver latitude of the order row with a given id. -/
def driverLatOf (db : DB) (orderId : Nat) : Option (Option ℚ) :=
  (db.orders.find? (fun o => o.id == orderId)).map (fun o => o.driver_lat)

/-- Lookup of the stored driver longitude of the order row with a given id. -/
def driverLngOf (db : DB) (orderId : Nat) : Option (Option ℚ) :=
  (db.orders.find? (fun o => o.id == orderId)).map (fun o => o.driver_lng)

/-- The line-item rows belonging to a given order id. -/
def itemsOf (db : DB) (orderId : Nat) : List OrderItemRow :=
  db.order_items.filter (fun i => i.order_id == orderId)

/-- updateOrderStatus (lines 3332-3337): an unconditional
`update({ status: newStatus }).eq("id", orderId)` on the orders
relation. The function performs no transition validation of any kind. -/
def updateOrderStatus (db : DB) (orderId : Nat) (newStatus : OrderStatus) : DB :=
  { db with orders := db.orders.map (fun o =>
      if o.id = orderId then { o with status := newStatus } else o) }

/-- The driver position write issued by the geolocation callback of
DriverNavMap (line 3130): `update({ driver_lat: lat, driver_lng: lng })`
with no status check of any kind. -/
def updateDriverPosition (db : DB) (orderId : Nat) (lat lng : ℚ) : DB :=
  { db with orders := db.orders.map (fun o =>
      if o.id = orderId then { o with driver_lat := some lat, driver_lng := some lng } else o) }

/-- The null write issued by handleDelivered (line 3183):
`update({ driver_lat: null, driver_lng: null })`. -/
def clearDriverPosition (db : DB) (orderId : Nat) : DB :=
  { db with orders := db.orders.map (fun o =>
      if o.id = orderId then { o with driver_lat := none, driver_lng := none } else o) }

/-- handleDelivered of DriverNavMap (lines 3181-3185) together with its
onDelivered callback (line 3427): clear the stored driver coordinates,
then updateOrderStatus(orderId, "delivered"). -/
def handleDelivered (db : DB) (orderId : Nat) : DB :=
  updateOrderStatus (clearDriverPosition db orderId) orderId .delivered

/-- JavaScript Array.indexOf over ORDER_STATUSES: the index of the
status, or -1 when it does not occur (the case of "cancelled"). -/
def jsIndexOf (s : OrderStatus) : Int :=
  match ORDER_STATUSES.indexOf? s with
  | some i => (i : Int)
  | none => -1

/-- nextStatus of OrderCard (line 3354):
ORDER_STATUSES[ORDER_STATUSES.indexOf(order.status) + 1]; undefined is
modelled as none. -/
def nextStatus (s : OrderStatus) : Option OrderStatus :=
  ORDER_STATUSES.get? (jsIndexOf s + 1).toNat

/-- The status-changing buttons OrderCard (lines 3383-3404) renders for
an order of status s, as the list of target statuses each button passes
to updateOrderStatus: Reject (→ cancelled) only while pending; the
single forward step when it is neither "delivered" nor "delivering";
Out for Delivery when the forward step is "delivering"; Delivered only
while "delivering". -/
def cardButtons (s : OrderStatus) : List OrderStatus :=
  (if s = .pending then [OrderStatus.cancelled] else []) ++
  (match nextStatus s with
   | some t => if t ≠ .delivered ∧ t ≠ .delivering then [t] else []
   | none => []) ++
  (if nextStatus s = some .delivering then [OrderStatus.delivering] else []) ++
  (if s = .delivering then [OrderStatus.delivered] else [])

/-- The statuses for which the dashboard renders an OrderCard at all
(lines 3328-3331, 3475, 3482): the pending bucket, the active bucket
(accepted, cooking, ready) and the delivering bucket. Delivered orders
are only counted for statistics and cancelled orders are in no bucket. -/
def renderedDashboardStatuses : List OrderStatus :=
  [.pending, .accepted, .cooking, .ready, .delivering]

/-- Transition relation of the spec (section 4.2), written from the
words of the spec for comparison against the code: single-step forward
along pending → accepted → cooking → ready → delivering → delivered,
cancelled reachable only from pending, nothing out of delivered or
cancelled. -/
def specAllowedTransition : OrderStatus → OrderStatus → Bool
  | .pending, .accepted => true
  | .accepted, .cooking => true
  | .cooking, .ready => true
  | .ready, .delivering => true
  | .delivering, .delivered => true
  | .pending, .cancelled => true
  | _, _ => false

/-- Result of insertOrder (lines 2594-2640): the store afterwards, the
error surfaced to the customer via setOrderError (none when silent),
the loyalty-point balance afterwards, and the created order row. -/
structure InsertResult where
  db : DB
  orderError : Option String
  points : ℤ
  placedOrder : Option OrderRow
deriving DecidableEq, Repr

/-- insertOrder (lines 2594-2640). `rand` is the Math.random() draw of
generateOrderNumber, `newId` the row id the database assigns, and the
two Boolean flags say whether the orders insert and the order_items
insert fail. A failing orders insert is surfaced (setOrderError) and
stops the flow; the result of the order_items insert is not inspected
by the source, so its failure is silent. On the success path the points
balance gains Math.floor(total * 10) points (lines 2630-2636). -/
def insertOrder (db : DB) (user : UserProfile) (cart : List CartItem)
    (paymentMethod paymentStatus specialInstructions deliveryAddress : String)
    (lat lng : ℚ) (rand : ℚ) (newId : Nat) (createdAt : Nat)
    (orderInsertFails itemsInsertFails : Bool) : InsertResult :=
  if orderInsertFails then
    { db := db, orderError := some "Failed to place order",
      points := user.points, placedOrder := none }
  else
    let row : OrderRow :=
      { id := newId
        order_number := generateOrderNumber rand
        user_id := user.id
        user_name := user.name
        total := cartTotal cart + deliveryFee (cartTotal cart)
        status := .pending
        payment_method := paymentMethod
        payment_status := paymentStatus
        special_instructions := specialInstructions
        delivery_address := deliveryAddress
        lat := some lat
        lng := some lng
        driver_lat := none
        driver_lng := none
        created_at := createdAt }
    let db1 : DB := { db with orders := row :: db.orders }
    let db2 : DB :=
      if itemsInsertFails then db1
      else { db1 with order_items := db1.order_items ++ cart.map (fun c =>
        { order_id := newId, menu_item_id := c.id, name := c.name
          qty := c.qty, price := c.price }) }
    { db := db2, orderError := none
      points := user.points + Int.floor ((cartTotal cart + deliveryFee (cartTotal cart)) * 10)
      placedOrder := some row }

/-- Outcome of a checkout attempt. `validationBlocked` models the UI
refusing the attempt — the disabled Place Order button (line 2864) and
the silent empty-cart return of placeOrder (line 2645) — which the spec
surfaces as ValidationError. `cardPaymentStarted` models the card
branch of placeOrder, which opens the payment sheet and creates no
order row yet. -/
inductive CheckoutOutcome where
  | validationBlocked
  | cardPaymentStarted
  | placed (res : InsertResult)
deriving DecidableEq, Repr

/-- The disabled condition of the Place Order button (line 2864):
cart.length === 0 || orderLoading || !deliveryAddress || !storeOpen. -/
def placeOrderButtonDisabled (cart : List CartItem) (orderLoading : Bool)
    (deliveryAddress : String) (storeOpen : Bool) : Bool :=
  cart.isEmpty || orderLoading || deliveryAddress == "" || !storeOpen

/-- A checkout attempt: the Place Order button gate (line 2864)
followed by placeOrder (lines 2644-2664): the empty-cart early return,
then for cash the insertOrder call; the card branch opens the Stripe
sheet without creating an order. Returns the outcome and the store
afterwards. -/
def attemptCheckout (db : DB) (user : UserProfile) (cart : List CartItem)
    (orderLoading storeOpen : Bool)
    (paymentMethod paymentStatus specialInstructions deliveryAddress : String)
    (lat lng : ℚ) (rand : ℚ) (newId : Nat) (createdAt : Nat)
    (orderInsertFails itemsInsertFails : Bool) : CheckoutOutcome × DB :=
  if placeOrderButtonDisabled cart orderLoading deliveryAddress storeOpen then
    (.validationBlocked, db)
  else if cart.length = 0 then
    (.validationBlocked, db)
  else if paymentMethod == "cash" then
    let res := insertOrder db user cart paymentMethod paymentStatus
      specialInstructions deliveryAddress lat lng rand newId createdAt
      orderInsertFails itemsInsertFails
    (.placed res, res.db)
  else
    (.cardPaymentStarted, db)

/-- A normalized line item of the local projection (normalizeOrder,
line 3684). -/
structure LocalItem where
  id : Nat
  name : String
  qty : Nat
  price : ℚ
deriving DecidableEq, Repr

/-- A normalized order of the local projection (normalizeOrder,
lines 3679-3697). -/
structure LocalOrder where
  id : Nat
  orderNumber : String
  userId : Nat
  userName : String
  items : List LocalItem
  total : ℚ
  status : OrderStatus
  paymentMethod : String
  paymentStatus : String
  specialInstructions : String
  deliveryAddress : String
  lat : Option ℚ
  lng : Option ℚ
  driverLat : Option ℚ
  driverLng : Option ℚ
  createdAt : Nat
deriving DecidableEq, Repr

/-- normalizeOrder (lines 3679-3697): snake_case row plus its
order_items rows to the camelCase shape of the UI; every nullable
coordinate goes through `v ? Number(v) : null`, so a null or zero
stored coordinate becomes null. -/
def normalizeOrder (row : OrderRow) (row_items : List OrderItemRow) : LocalOrder :=
  { id := row.id
    orderNumber := row.order_number
    userId := row.user_id
    userName := row.user_name
    items := row_items.map (fun i =>
      { id := i.menu_item_id, name := i.name, qty := i.qty, price := i.price })
    total := row.total
    status := row.status
    paymentMethod := row.payment_method
    paymentStatus := row.payment_status
    specialInstructions := row.special_instructions
    deliveryAddress := row.delivery_address
    lat := jsNumOrNull row.lat
    lng := jsNumOrNull row.lng
    driverLat := jsNumOrNull row.driver_lat
    driverLng := jsNumOrNull row.driver_lng
    createdAt := row.created_at }

/-- The INSERT-event reducer of the realtime subscription
(lines 3801-3813): the refetched row is normalized and prepended to the
local list unless an order with the same id is already present. -/
def insertEventReducer (d : LocalOrder) (prev : List LocalOrder) : List LocalOrder :=
  if prev.any (fun o => o.id == d.id) then prev else d :: prev

/-- The per-order merge of the UPDATE-event reducer (lines 3814-3819):
for the matching id, take the status of the payload and a driver
coordinate only when the payload value is truthy (non-null, non-zero),
keeping the previous local value otherwise; every other order and every
other field is untouched. -/
def updateMerge (n : OrderRow) (o : LocalOrder) : LocalOrder :=
  if o.id = n.id then
    { o with
      status := n.status,
      driverLat := if truthyNum n.driver_lat then n.driver_lat else o.driverLat,
      driverLng := if truthyNum n.driver_lng then n.driver_lng else o.driverLng }
  else o

/-- The UPDATE-event reducer of the realtime subscription
(lines 3814-3819): map updateMerge over the local list. -/
def applyUpdateEvent (n : OrderRow) (prev : List LocalOrder) : List LocalOrder :=
  prev.map (updateMerge n)

/-- The id-and-total projection of the orders relation, used to state
that mutations leave every stored total untouched. -/
def ordersTotals (db : DB) : List (Nat × ℚ) :=
  db.orders.map (fun o => (o.id, o.total))

/-- A concrete order row used by the concrete-input theorems. -/
def sampleOrder (st : OrderStatus) (dlat dlng : Option ℚ) : OrderRow :=
  { id := 1, order_number := "MOMO-1234", user_id := 7, user_name := "Asha"
    total := 2399/100, status := st, payment_method := "cash", payment_status := "pending"
    special_instructions := "", delivery_address := "12 Main St"
    lat := some 43, lng := some (-79), driver_lat := dlat, driver_lng := dlng
    created_at := 100 }

/-- A store holding one pending order with no driver coordinates. -/
def dbPending1 : DB := ⟨[sampleOrder .pending none none], []⟩

/-- A store holding one delivering order with stored driver coordinates. -/
def dbDelivering1 : DB := ⟨[sampleOrder .delivering (some 43) (some (-79))], []⟩

/-- An empty store. -/
def dbEmpty : DB := ⟨[], []⟩

/-- A concrete customer with no loyalty points yet. -/
def user7 : UserProfile := { id := 7, name := "Asha", points := 0 }

/-- A concrete cart with a 20-dollar subtotal (two items at 10 dollars). -/
def cart20 : List CartItem := [{ id := 3, name := "Steam Momo", qty := 2, price := 10 }]

/-- Helper: find? commutes with a map whose function preserves the
predicate. -/
lemma find?_map_pres (l : List OrderRow) (p : OrderRow → Bool) (f : OrderRow → OrderRow)
    (hp : ∀ o, p (f o) = p o) :
    (l.map f).find? p = (l.find? p).map f := by
  induction l with
  | nil => rfl
  | cons a t ih =>
    by_cases h : p a = true
    · simp [List.find?_cons, hp, h]
    · simp only [Bool.not_eq_true] at h
      simp [List.find?_cons, hp, h, ih]

/-- Helper: looking up the targeted row after a per-row conditional
update yields the updated row. -/
lemma find?_update_found (l : List OrderRow) (orderId : Nat) (f : OrderRow → OrderRow)
    (hid : ∀ o, (f o).id = o.id) (o : OrderRow)
    (h : l.find? (fun o => o.id == orderId) = some o) :
    (l.map (fun o => if o.id = orderId then f o else o)).find? (fun o => o.id == orderId)
      = some (f o) := by
  rw [find?_map_pres _ _ _ (fun o => by by_cases h2 : o.id = orderId <;> simp [h2, hid]), h]
  have hpo : o.id = orderId := by simpa using List.find?_some h
  simp [hpo]

/-- Helper: a per-row conditional update leaves any projection it does
not touch unchanged, for every looked-up id. -/
lemma find?_update_frame (l : List OrderRow) (orderId i : Nat) (f : OrderRow → OrderRow)
    (hid : ∀ o, (f o).id = o.id) {β : Type} (g : OrderRow → β) (hg : ∀ o, g (f o) = g o) :
    ((l.map (fun o => if o.id = orderId then f o else o)).find? (fun o => o.id == i)).map g
      = (l.find? (fun o => o.id == i)).map g := by
  rw [find?_map_pres _ _ _ (fun o => by by_cases h2 : o.id = orderId <;> simp [h2, hid])]
  cases hf : l.find? (fun o => o.id == i) with
  | none => rfl
  | some o => by_cases h2 : o.id = orderId <;> simp [h2, hg]

/-- Helper: foldl of the cart-subtotal step equals the starting value
plus the sum of quantity times price over the cart. -/
lemma cartTotal_foldl (cart : List CartItem) (a : ℚ) :
    cart.foldl (fun sum c => sum + c.price * (c.qty : ℚ)) a
      = a + (cart.map (fun c => (c.qty : ℚ) * c.price)).sum := by
  induction cart generalizing a with
  | nil => simp
  | cons c t ih => simp [List.foldl, ih]; ring

/-- Helper: the cart subtotal of the source equals the sum of quantity
times unit price over the cart. -/
lemma cartTotal_eq_sum (cart : List CartItem) :
    cartTotal cart = (cart.map (fun c => (c.qty : ℚ) * c.price)).sum := by
  unfold cartTotal
  rw [cartTotal_foldl]
  ring

/-- C9: every generated order number is MOMO- followed by a number in
the range 1000 to 9999, the generation consults only the random draw
(no uniqueness check against existing orders is possible in its type),
and two different random draws can yield the same order number. -/
theorem generateOrderNumber_range_and_collision :
    (∀ r : ℚ, 0 ≤ r → r < 1 →
      ∃ n : ℤ, 1000 ≤ n ∧ n ≤ 9999 ∧ generateOrderNumber r = "MOMO-" ++ toString n) ∧
    (∃ r₁ r₂ : ℚ, r₁ ≠ r₂ ∧ 0 ≤ r₁ ∧ r₁ < 1 ∧ 0 ≤ r₂ ∧ r₂ < 1 ∧
      generateOrderNumber r₁ = generateOrderNumber r₂) := by
  constructor
  · intro r h0 h1
    refine ⟨Int.floor (1000 + r * 9000), ?_, ?_, rfl⟩
    · exact Int.le_floor.mpr (by push_cast; nlinarith)
    · have h3 : Int.floor ((1000 : ℚ) + r * 9000) < 10000 :=
        Int.floor_lt.mpr (by push_cast; nlinarith)
      omega
  · refine ⟨0, 1/18000, by norm_num, le_refl 0, by norm_num, by norm_num, by norm_num, ?_⟩
    unfold generateOrderNumber
    rw [show Int.floor ((1000 : ℚ) + 0 * 9000) = 1000 by norm_num,
      show Int.floor ((1000 : ℚ) + 1/18000 * 9000) = 1000 by
        rw [Int.floor_eq_iff]; constructor <;> norm_num]

/-- Witness for C9 at the concrete random draw one half. -/
theorem generateOrderNumber_range_and_collision_witness :
    ∃ n : ℤ, 1000 ≤ n ∧ n ≤ 9999 ∧ generateOrderNumber (1/2) = "MOMO-" ++ toString n :=
  generateOrderNumber_range_and_collision.1 (1/2) (by norm_num) (by norm_num)

/-- C1 counterexample: updateOrderStatus performs no transition check;
on a pending order the request to jump straight to delivered is not a
legal transition, yet the write goes through and the stored status does
change, contradicting the claim that it is rejected before any
persistence write with the status unchanged. -/
theorem updateOrderStatus_accepts_skip_transition :
    specAllowedTransition .pending .delivered = false ∧
    statusOf dbPending1 1 = some .pending ∧
    statusOf (updateOrderStatus dbPending1 1 .delivered) 1 = some .delivered :=
  ⟨rfl, rfl, rfl⟩

/-- C1 amended: the state machine is enforced only by the dashboard UI:
every status-change button OrderCard renders for a status the dashboard
actually displays targets a transition that is legal per the spec state
machine, while updateOrderStatus itself validates nothing and persists
whatever status it is handed. -/
theorem dashboardButtons_legal_and_update_unchecked :
    (∀ s ∈ renderedDashboardStatuses, ∀ t ∈ cardButtons s, specAllowedTransition s t = true) ∧
    (∀ (db : DB) (orderId : Nat) (t s : OrderStatus),
      statusOf db orderId = some s →
      statusOf (updateOrderStatus db orderId t) orderId = some t) := by
  constructor
  · decide
  · intro db orderId t s h
    unfold statusOf at h ⊢
    cases hf : db.orders.find? (fun o => o.id == orderId) with
    | none => rw [hf] at h; simp at h
    | some o =>
      have he : (updateOrderStatus db orderId t).orders
          = db.orders.map (fun o => if o.id = orderId then { o with status := t } else o) := rfl
      rw [he, find?_update_found db.orders orderId
        (fun o => { o with status := t }) (fun o => rfl) o hf]
      rfl

/-- Witness for C1 amended: the Accept button on a pending card is a
legal transition, and updateOrderStatus writes the accepted status on
the concrete pending store. -/
theorem dashboardButtons_legal_and_update_unchecked_witness :
    specAllowedTransition .pending .accepted = true ∧
    statusOf (updateOrderStatus dbPending1 1 .accepted) 1 = some .accepted :=
  ⟨dashboardButtons_legal_and_update_unchecked.1 .pending (by decide) .accepted (by decide),
    dashboardButtons_legal_and_update_unchecked.2 dbPending1 1 .accepted .pending rfl⟩

/-- C2 counterexample: marking a delivering order as delivered through
the dashboard card button (a plain updateOrderStatus) leaves the stored
driver coordinates in place, so an order that is no longer delivering
still has non-null driver coordinates; moreover the raw position write
has no status guard: on a pending order it sets coordinates anyway. -/
theorem delivered_via_dashboard_keeps_driver_coordinates :
    statusOf (updateOrderStatus dbDelivering1 1 .delivered) 1 = some .delivered ∧
    driverLatOf (updateOrderStatus dbDelivering1 1 .delivered) 1 = some (some 43) ∧
    driverLngOf (updateOrderStatus dbDelivering1 1 .delivered) 1 = some (some (-79)) ∧
    (some (43 : ℚ) ≠ (none : Option ℚ)) ∧
    statusOf dbPending1 1 = some .pending ∧
    driverLatOf (updateDriverPosition dbPending1 1 50 60) 1 = some (some 50) ∧
    driverLatOf dbPending1 1 = some none :=
  ⟨rfl, rfl, rfl, by simp, rfl, rfl, rfl⟩

/-- C2 amended: driver coordinates are cleared only on the navigation
view path: handleDelivered nulls both coordinates and sets the status
to delivered; the dashboard card status write never touches the stored
driver coordinates (so the transition out of delivering made there does
not clear them); and the position write ignores the status entirely:
it overwrites the coordinates of the matched order whatever its status,
while touching the status of no order. -/
theorem driver_coordinate_clearing_paths :
    (∀ (db : DB) (orderId : Nat) (s : OrderStatus),
      statusOf db orderId = some s →
      statusOf (handleDelivered db orderId) orderId = some .delivered ∧
      driverLatOf (handleDelivered db orderId) orderId = some none ∧
      driverLngOf (handleDelivered db orderId) orderId = some none) ∧
    (∀ (db : DB) (orderId : Nat) (t : OrderStatus) (i : Nat),
      driverLatOf (updateOrderStatus db orderId t) i = driverLatOf db i ∧
      driverLngOf (updateOrderStatus db orderId t) i = driverLngOf db i) ∧
    (∀ (db : DB) (orderId : Nat) (lat lng : ℚ) (i : Nat),
      statusOf (updateDriverPosition db orderId lat lng) i = statusOf db i) ∧
    (∀ (db : DB) (orderId : Nat) (lat lng : ℚ) (s : OrderStatus),
      statusOf db orderId = some s →
      driverLatOf (updateDriverPosition db orderId lat lng) orderId = some (some lat) ∧
      driverLngOf (updateDriverPosition db orderId lat lng) orderId = some (some lng)) := by
  refine ⟨?_, ?_, ?_, ?_⟩
  · intro db orderId s h
    unfold statusOf at h
    cases hf : db.orders.find? (fun o => o.id == orderId) with
    | none => rw [hf] at h; simp at h
    | some o =>
      have hc : (clearDriverPosition db orderId).orders.find? (fun o => o.id == orderId)
          = some { o with driver_lat := none, driver_lng := none } :=
        find?_update_found db.orders orderId
          (fun o => { o with driver_lat := none, driver_lng := none }) (fun o => rfl) o hf
      have hu := find?_update_found (clearDriverPosition db orderId).orders orderId
        (fun o => { o with status := OrderStatus.delivered }) (fun o => rfl)
        { o with driver_lat := none, driver_lng := none } hc
      have he : (handleDelivered db orderId).orders
          = (clearDriverPosition db orderId).orders.map (fun o =>
              if o.id = orderId then { o with status := OrderStatus.delivered } else o) := rfl
      refine ⟨?_, ?_, ?_⟩ <;>
      · simp only [statusOf, driverLatOf, driverLngOf]
        rw [he, hu]
        rfl
  · intro db orderId t i
    have he : (updateOrderStatus db orderId t).orders
        = db.orders.map (fun o => if o.id = orderId then { o with status := t } else o) := rfl
    constructor
    · unfold driverLatOf
      rw [he]
      exact find?_update_frame db.orders orderId i
        (fun o => { o with status := t }) (fun o => rfl) (fun o => o.driver_lat) (fun o => rfl)
    · unfold driverLngOf
      rw [he]
      exact find?_update_frame db.orders orderId i
        (fun o => { o with status := t }) (fun o => rfl) (fun o => o.driver_lng) (fun o => rfl)
  · intro db orderId lat lng i
    have he : (updateDriverPosition db orderId lat lng).orders
        = db.orders.map (fun o =>
            if o.id = orderId then { o with driver_lat := some lat, driver_lng := some lng } else o) := rfl
    unfold statusOf
    rw [he]
    exact find?_update_frame db.orders orderId i
      (fun o => { o with driver_lat := some lat, driver_lng := some lng }) (fun o => rfl)
      (fun o => o.status) (fun o => rfl)
  · intro db orderId lat lng s h
    unfold statusOf at h
    cases hf : db.orders.find? (fun o => o.id == orderId) with
    | none => rw [hf] at h; simp at h
    | some o =>
      have hu := find?_update_found db.orders orderId
        (fun o => { o with driver_lat := some lat, driver_lng := some lng }) (fun o => rfl) o hf
      have he : (updateDriverPosition db orderId lat lng).orders
          = db.orders.map (fun o =>
              if o.id = orderId then { o with driver_lat := some lat, driver_lng := some lng } else o) := rfl
      constructor
      · unfold driverLatOf
        rw [he, hu]
        rfl
      · unfold driverLngOf
        rw [he, hu]
        rfl

/-- Witness for C2 amended on the concrete delivering store: the
navigation-view path clears both coordinates and marks delivered, the
dashboard status write preserves the stored coordinate, the position
write preserves the status, and the position write on the delivering
order stores the new coordinates. -/
theorem driver_coordinate_clearing_paths_witness :
    (statusOf (handleDelivered dbDelivering1 1) 1 = some .delivered ∧
      driverLatOf (handleDelivered dbDelivering1 1) 1 = some none ∧
      driverLngOf (handleDelivered dbDelivering1 1) 1 = some none) ∧
    driverLatOf (updateOrderStatus dbDelivering1 1 .delivered) 1 = driverLatOf dbDelivering1 1 ∧
    statusOf (updateDriverPosition dbDelivering1 1 50 60) 1 = statusOf dbDelivering1 1 ∧
    driverLatOf (updateDriverPosition dbDelivering1 1 50 60) 1 = some (some 50) :=
  ⟨driver_coordinate_clearing_paths.1 dbDelivering1 1 .delivering rfl,
    (driver_coordinate_clearing_paths.2.1 dbDelivering1 1 .delivered 1).1,
    driver_coordinate_clearing_paths.2.2.1 dbDelivering1 1 50 60 1,
    (driver_coordinate_clearing_paths.2.2.2 dbDelivering1 1 50 60 .delivering rfl).1⟩

/-- C3: the persisted total of a created order is the sum of quantity
times unit price over the cart plus the delivery fee; the fee is 3.99
below the 25-dollar threshold and 0 above it; a 20-dollar subtotal
yields total 23.99; the order starts pending with the requested payment
method; the persisted line items reproduce exactly that sum; and none
of the later mutations (status writes, position writes, coordinate
clearing) changes any stored total. -/
theorem insertOrder_total_and_immutability
    (db : DB) (user : UserProfile) (cart : List CartItem)
    (paymentMethod paymentStatus instructionsText addressText : String)
    (lat lng rand : ℚ) (newId createdAt : Nat) (itemsInsertFails : Bool)
    (hfresh : ∀ i ∈ db.order_items, i.order_id ≠ newId) :
    ∃ row : OrderRow,
      (insertOrder db user cart paymentMethod paymentStatus instructionsText
        addressText lat lng rand newId createdAt false itemsInsertFails).placedOrder = some row ∧
      row.total = (cart.map (fun c => (c.qty : ℚ) * c.price)).sum + deliveryFee (cartTotal cart) ∧
      (cartTotal cart < 25 → deliveryFee (cartTotal cart) = 399/100) ∧
      (25 ≤ cartTotal cart → deliveryFee (cartTotal cart) = 0) ∧
      row.status = .pending ∧
      row.payment_method = paymentMethod ∧
      (cartTotal cart = 20 → row.total = 2399/100) ∧
      (itemsInsertFails = false →
        ((itemsOf (insertOrder db user cart paymentMethod paymentStatus instructionsText
            addressText lat lng rand newId createdAt false itemsInsertFails).db newId).map
          (fun i => (i.qty : ℚ) * i.price)).sum + deliveryFee (cartTotal cart) = row.total) ∧
      (∀ (d : DB) (i : Nat) (st : OrderStatus),
        ordersTotals (updateOrderStatus d i st) = ordersTotals d) ∧
      (∀ (d : DB) (i : Nat) (la ln : ℚ),
        ordersTotals (updateDriverPosition d i la ln) = ordersTotals d) ∧
      (∀ (d : DB) (i : Nat), ordersTotals (clearDriverPosition d i) = ordersTotals d) := by
  refine ⟨_, rfl, ?_, ?_, ?_, rfl, rfl, ?_, ?_, ?_, ?_, ?_⟩
  · rw [cartTotal_eq_sum]
  · intro h
    unfold deliveryFee
    rw [if_neg (by linarith)]
  · intro h
    unfold deliveryFee
    rw [if_pos h]
  · intro h
    show cartTotal cart + deliveryFee (cartTotal cart) = 2399/100
    rw [h]
    norm_num [deliveryFee]
  · intro hif
    subst hif
    have hitems : itemsOf (insertOrder db user cart paymentMethod paymentStatus
        instructionsText addressText lat lng rand newId createdAt false false).db newId
        = cart.map (fun c => ({ order_id := newId, menu_item_id := c.id, name := c.name, qty := c.qty, price := c.price } : OrderItemRow)) := by
      show (db.order_items ++ cart.map (fun c => ({ order_id := newId, menu_item_id := c.id, name := c.name, qty := c.qty, price := c.price } : OrderItemRow))).filter (fun i => i.order_id == newId) = _
      rw [List.filter_append,
        List.filter_eq_nil_iff.mpr (fun i hi => by simpa using hfresh i hi),
        List.filter_eq_self.mpr (fun i hi => by
          obtain ⟨c, _, hc⟩ := List.mem_map.mp hi
          simp [← hc])]
      simp
    rw [hitems, List.map_map]
    show (cart.map (fun c => (c.qty : ℚ) * c.price)).sum + deliveryFee (cartTotal cart)
        = cartTotal cart + deliveryFee (cartTotal cart)
    rw [cartTotal_eq_sum]
  · intro d i st
    simp only [ordersTotals, updateOrderStatus, List.map_map]
    apply List.map_congr_left
    intro o _
    by_cases h : o.id = i <;> simp [Function.comp, h]
  · intro d i la ln
    simp only [ordersTotals, updateDriverPosition, List.map_map]
    apply List.map_congr_left
    intro o _
    by_cases h : o.id = i <;> simp [Function.comp, h]
  · intro d i
    simp only [ordersTotals, clearDriverPosition, List.map_map]
    apply List.map_congr_left
    intro o _
    by_cases h : o.id = i <;> simp [Function.comp, h]

/-- Witness for C3: the concrete 20-dollar cash order persists with
total 23.99, status pending and payment method cash. -/
theorem insertOrder_total_and_immutability_witness :
    ∃ row : OrderRow,
      (insertOrder dbEmpty user7 cart20 "cash" "pending" "" "12 Main St" 43 (-79)
        0 5 100 false false).placedOrder = some row ∧
      row.total = 2399/100 ∧ row.status = .pending ∧ row.payment_method = "cash" := by
  obtain ⟨row, h1, _, _, _, h5, h6, h7, _⟩ :=
    insertOrder_total_and_immutability dbEmpty user7 cart20 "cash" "pending" "" "12 Main St"
      43 (-79) 0 5 100 false (by simp [dbEmpty])
  exact ⟨row, h1, h7 (by norm_num [cartTotal, cart20]), h5, h6⟩

/-- C4: whenever the cart is empty, the delivery address is missing or
the kitchen is marked closed, the checkout attempt is blocked (the
validation failure the spec calls ValidationError) and the store is
unchanged: no order row is created. -/
theorem checkout_blocked_on_validation
    (db : DB) (user : UserProfile) (cart : List CartItem)
    (orderLoading storeOpen : Bool)
    (paymentMethod paymentStatus instructionsText addressText : String)
    (lat lng rand : ℚ) (newId createdAt : Nat) (oFail iFail : Bool)
    (hbad : cart = [] ∨ addressText = "" ∨ storeOpen = false) :
    attemptCheckout db user cart orderLoading storeOpen paymentMethod paymentStatus
      instructionsText addressText lat lng rand newId createdAt oFail iFail
      = (.validationBlocked, db) := by
  unfold attemptCheckout placeOrderButtonDisabled
  rcases hbad with h | h | h <;> simp [h]

/-- Witness for C4: with the kitchen closed, the concrete checkout
attempt with a non-empty cart is blocked and the store is unchanged. -/
theorem checkout_blocked_on_validation_witness :
    attemptCheckout dbEmpty user7 cart20 false false "cash" "pending" "" "12 Main St"
      43 (-79) 0 5 100 false false = (.validationBlocked, dbEmpty) :=
  checkout_blocked_on_validation dbEmpty user7 cart20 false false "cash" "pending" ""
    "12 Main St" 43 (-79) 0 5 100 false false (Or.inr (Or.inr rfl))

/-- C5 counterexample: when the order-row insert succeeds but the
line-items insert fails, no error is surfaced (orderError is none) yet
the store holds the order row (id 5) with no line items at all: a
silent partial order. -/
theorem items_insert_failure_is_silent :
    (insertOrder dbEmpty user7 cart20 "cash" "pending" "" "12 Main St" 43 (-79)
      0 5 100 false true).orderError = none ∧
    (insertOrder dbEmpty user7 cart20 "cash" "pending" "" "12 Main St" 43 (-79)
      0 5 100 false true).db.orders.map (fun o => o.id) = [5] ∧
    itemsOf (insertOrder dbEmpty user7 cart20 "cash" "pending" "" "12 Main St" 43 (-79)
      0 5 100 false true).db 5 = [] :=
  ⟨rfl, rfl, rfl⟩

/-- C5 amended: a failing order-row insert is surfaced to the customer
and leaves the store unchanged (no order placed); but the result of the
line-items insert is never inspected, so when it fails the order row is
still persisted with zero line items and no error is surfaced. -/
theorem insertOrder_failure_surfacing
    (db : DB) (user : UserProfile) (cart : List CartItem)
    (paymentMethod paymentStatus instructionsText addressText : String)
    (lat lng rand : ℚ) (newId createdAt : Nat) (iFail : Bool)
    (hfresh : ∀ i ∈ db.order_items, i.order_id ≠ newId) :
    (insertOrder db user cart paymentMethod paymentStatus instructionsText addressText
        lat lng rand newId createdAt true iFail
      = { db := db, orderError := some "Failed to place order", points := user.points,
          placedOrder := none }) ∧
    ((insertOrder db user cart paymentMethod paymentStatus instructionsText addressText
        lat lng rand newId createdAt false true).orderError = none ∧
      (∃ row ∈ (insertOrder db user cart paymentMethod paymentStatus instructionsText
        addressText lat lng rand newId createdAt false true).db.orders, row.id = newId) ∧
      itemsOf (insertOrder db user cart paymentMethod paymentStatus instructionsText
        addressText lat lng rand newId createdAt false true).db newId = []) := by
  refine ⟨rfl, rfl, ⟨_, List.mem_cons_self _ _, rfl⟩, ?_⟩
  show db.order_items.filter (fun i => i.order_id == newId) = []
  exact List.filter_eq_nil_iff.mpr (fun i hi => by simpa using hfresh i hi)

/-- Witness for C5 amended at the concrete inputs: the surfaced failure
of the order insert, and the silent partial order when only the items
insert fails. -/
theorem insertOrder_failure_surfacing_witness :
    (insertOrder dbEmpty user7 cart20 "cash" "pending" "" "12 Main St" 43 (-79)
        0 5 100 true false
      = { db := dbEmpty, orderError := some "Failed to place order", points := 0,
          placedOrder := none }) ∧
    ((insertOrder dbEmpty user7 cart20 "cash" "pending" "" "12 Main St" 43 (-79)
        0 5 100 false true).orderError = none ∧
      (∃ row ∈ (insertOrder dbEmpty user7 cart20 "cash" "pending" "" "12 Main St" 43 (-79)
        0 5 100 false true).db.orders, row.id = 5) ∧
      itemsOf (insertOrder dbEmpty user7 cart20 "cash" "pending" "" "12 Main St" 43 (-79)
        0 5 100 false true).db 5 = []) :=
  insertOrder_failure_surfacing dbEmpty user7 cart20 "cash" "pending" "" "12 Main St"
    43 (-79) 0 5 100 false (by simp [dbEmpty])

/-- A concrete normalized local order (id 1), used by witnesses. -/
def localSample : LocalOrder := normalizeOrder (sampleOrder .pending none none) []

/-- A second concrete local order with a different id (id 2). -/
def localOther : LocalOrder := { localSample with id := 2 }

/-- A concrete local order with known driver coordinates. -/
def localDrv : LocalOrder := { localSample with driverLat := some 5, driverLng := some 6 }

/-- A concrete update payload whose driver latitude is null and whose
driver longitude is zero (both falsy in JavaScript). -/
def rowFalsy : OrderRow := sampleOrder .delivering none (some 0)

/-- C6: the insert-event reducer is idempotent, and applying it to a
local state that does not yet hold the order id yields exactly one
local copy of that order. -/
theorem insertEventReducer_idempotent (d : LocalOrder) (prev : List LocalOrder) :
    insertEventReducer d (insertEventReducer d prev) = insertEventReducer d prev ∧
    (prev.countP (fun o => o.id == d.id) = 0 →
      (insertEventReducer d prev).countP (fun o => o.id == d.id) = 1) := by
  unfold insertEventReducer
  by_cases h : prev.any (fun o => o.id == d.id) = true
  · simp only [h, if_true]
    refine ⟨trivial, ?_⟩
    intro h0
    exfalso
    obtain ⟨o, ho, hoid⟩ := List.any_eq_true.mp h
    exact absurd hoid (by simpa using List.countP_eq_zero.mp h0 o ho)
  · have h2 : prev.any (fun o => o.id == d.id) = false := by simpa using h
    simp only [h2, Bool.false_eq_true, if_false]
    constructor
    · have hhead : (d :: prev).any (fun o => o.id == d.id) = true := by simp
      simp [hhead]
    · intro h0
      rw [List.countP_cons]
      simp [h0]

/-- Witness for C6 on the empty local state. -/
theorem insertEventReducer_idempotent_witness :
    insertEventReducer localSample (insertEventReducer localSample [])
      = insertEventReducer localSample [] ∧
    (insertEventReducer localSample []).countP (fun o => o.id == localSample.id) = 1 :=
  ⟨(insertEventReducer_idempotent localSample []).1,
    (insertEventReducer_idempotent localSample []).2 rfl⟩

/-- C7: the update-event reducer maps the per-order merge over the
local list; the merge leaves every order with a different id entirely
unchanged; it preserves every field other than status and the driver
coordinates (line items, total, order number, addresses, payment
fields, timestamps); and for the matching id it installs the status of
the payload. -/
theorem updateEvent_frame (n : OrderRow) (prev : List LocalOrder) :
    applyUpdateEvent n prev = prev.map (updateMerge n) ∧
    (∀ o : LocalOrder, o.id ≠ n.id → updateMerge n o = o) ∧
    (∀ o : LocalOrder,
      (updateMerge n o).id = o.id ∧
      (updateMerge n o).orderNumber = o.orderNumber ∧
      (updateMerge n o).userId = o.userId ∧
      (updateMerge n o).userName = o.userName ∧
      (updateMerge n o).items = o.items ∧
      (updateMerge n o).total = o.total ∧
      (updateMerge n o).paymentMethod = o.paymentMethod ∧
      (updateMerge n o).paymentStatus = o.paymentStatus ∧
      (updateMerge n o).specialInstructions = o.specialInstructions ∧
      (updateMerge n o).deliveryAddress = o.deliveryAddress ∧
      (updateMerge n o).lat = o.lat ∧
      (updateMerge n o).lng = o.lng ∧
      (updateMerge n o).createdAt = o.createdAt) ∧
    (∀ o : LocalOrder, o.id = n.id → (updateMerge n o).status = n.status) := by
  refine ⟨rfl, ?_, ?_, ?_⟩
  · intro o h
    simp [updateMerge, h]
  · intro o
    by_cases h : o.id = n.id <;> simp [updateMerge, h]
  · intro o h
    simp [updateMerge, h]

/-- Witness for C7: the merge of a concrete payload leaves the order
with a different id unchanged, keeps the total and items of the
matching order, and installs the payload status there. -/
theorem updateEvent_frame_witness :
    updateMerge rowFalsy localOther = localOther ∧
    (updateMerge rowFalsy localSample).total = localSample.total ∧
    (updateMerge rowFalsy localSample).items = localSample.items ∧
    (updateMerge rowFalsy localSample).status = .delivering :=
  ⟨(updateEvent_frame rowFalsy []).2.1 localOther (by decide),
    ((updateEvent_frame rowFalsy []).2.2.1 localSample).2.2.2.2.2.1,
    ((updateEvent_frame rowFalsy []).2.2.1 localSample).2.2.2.2.1,
    (updateEvent_frame rowFalsy []).2.2.2 localSample rfl⟩

/-- C8 counterexample: the concrete 20-dollar order run through
insertOrder leaves the customer with 239 points (up from 0) while the
created order is still pending, so the points are added at creation,
not when the order completes. -/
theorem points_added_while_order_pending :
    (insertOrder dbEmpty user7 cart20 "cash" "pending" "" "12 Main St" 43 (-79)
      0 5 100 false false).points = 239 ∧
    user7.points = 0 ∧
    (insertOrder dbEmpty user7 cart20 "cash" "pending" "" "12 Main St" 43 (-79)
      0 5 100 false false).placedOrder.map (fun o => o.status) = some .pending := by
  refine ⟨?_, rfl, rfl⟩
  show user7.points + Int.floor ((cartTotal cart20 + deliveryFee (cartTotal cart20)) * 10) = 239
  rw [show cartTotal cart20 = 20 by norm_num [cartTotal, cart20],
    show deliveryFee 20 = 399/100 by norm_num [deliveryFee],
    show ((20 : ℚ) + 399/100) * 10 = 2399/10 by norm_num,
    show Int.floor ((2399 : ℚ)/10) = 239 by
      rw [Int.floor_eq_iff]; constructor <;> norm_num]
  rfl

/-- C8 amended: on every successful insert the loyalty balance gains
Math.floor(total times 10) points immediately, while the created order
is still in the pending status; no later lifecycle step touches the
balance (the status and position writes operate on the store alone). -/
theorem points_accrue_at_creation
    (db : DB) (user : UserProfile) (cart : List CartItem)
    (paymentMethod paymentStatus instructionsText addressText : String)
    (lat lng rand : ℚ) (newId createdAt : Nat) (iFail : Bool) :
    (insertOrder db user cart paymentMethod paymentStatus instructionsText addressText
        lat lng rand newId createdAt false iFail).points
      = user.points + Int.floor ((cartTotal cart + deliveryFee (cartTotal cart)) * 10) ∧
    (insertOrder db user cart paymentMethod paymentStatus instructionsText addressText
        lat lng rand newId createdAt false iFail).placedOrder.map (fun o => o.status)
      = some .pending :=
  ⟨rfl, rfl⟩

/-- C10: a falsy (null or zero) driver coordinate in an update payload
never clears the locally known coordinate: the merge keeps the previous
value, and a non-null local coordinate stays non-null through every
merge; a null driver coordinate reaches the projection only through
normalizeOrder, which maps a null or zero stored coordinate to null. -/
theorem updateEvent_retains_driver_on_falsy
    (n : OrderRow) (o : LocalOrder) (row : OrderRow) (row_items : List OrderItemRow) :
    ((n.driver_lat = none ∨ n.driver_lat = some 0) →
      (updateMerge n o).driverLat = o.driverLat) ∧
    ((n.driver_lng = none ∨ n.driver_lng = some 0) →
      (updateMerge n o).driverLng = o.driverLng) ∧
    (o.driverLat ≠ none → (updateMerge n o).driverLat ≠ none) ∧
    (o.driverLng ≠ none → (updateMerge n o).driverLng ≠ none) ∧
    ((row.driver_lat = none ∨ row.driver_lat = some 0) →
      (normalizeOrder row row_items).driverLat = none) ∧
    ((row.driver_lng = none ∨ row.driver_lng = some 0) →
      (normalizeOrder row row_items).driverLng = none) := by
  refine ⟨?_, ?_, ?_, ?_, ?_, ?_⟩
  · intro h
    by_cases hid : o.id = n.id
    · rcases h with h | h <;> simp [updateMerge, hid, truthyNum, h]
    · simp [updateMerge, hid]
  · intro h
    by_cases hid : o.id = n.id
    · rcases h with h | h <;> simp [updateMerge, hid, truthyNum, h]
    · simp [updateMerge, hid]
  · intro h
    by_cases hid : o.id = n.id
    · cases hnl : n.driver_lat with
      | none => simp [updateMerge, hid, truthyNum, hnl, h]
      | some x =>
        by_cases hx : x = 0
        · simp [updateMerge, hid, truthyNum, hnl, hx, h]
        · simp [updateMerge, hid, truthyNum, hnl, hx]
    · simp [updateMerge, hid, h]
  · intro h
    by_cases hid : o.id = n.id
    · cases hnl : n.driver_lng with
      | none => simp [updateMerge, hid, truthyNum, hnl, h]
      | some x =>
        by_cases hx : x = 0
        · simp [updateMerge, hid, truthyNum, hnl, hx, h]
        · simp [updateMerge, hid, truthyNum, hnl, hx]
    · simp [updateMerge, hid, h]
  · intro h
    rcases h with h | h <;> simp [normalizeOrder, jsNumOrNull, truthyNum, h]
  · intro h
    rcases h with h | h <;> simp [normalizeOrder, jsNumOrNull, truthyNum, h]

/-- Witness for C10 on the concrete falsy payload (null latitude, zero
longitude) applied to a local order with known coordinates, and on
normalization of that payload as a stored row. -/
theorem updateEvent_retains_driver_on_falsy_witness :
    (updateMerge rowFalsy localDrv).driverLat = localDrv.driverLat ∧
    (updateMerge rowFalsy localDrv).driverLng = localDrv.driverLng ∧
    (updateMerge rowFalsy localDrv).driverLat ≠ none ∧
    (normalizeOrder rowFalsy []).driverLat = none ∧
    (normalizeOrder rowFalsy []).driverLng = none :=
  ⟨(updateEvent_retains_driver_on_falsy rowFalsy localDrv rowFalsy []).1 (Or.inl rfl),
    (updateEvent_retains_driver_on_falsy rowFalsy localDrv rowFalsy []).2.1 (Or.inr rfl),
    (updateEvent_retains_driver_on_falsy rowFalsy localDrv rowFalsy []).2.2.1 (by decide),
    (updateEvent_retains_driver_on_falsy rowFalsy localDrv rowFalsy []).2.2.2.2.1 (Or.inl rfl),
    (updateEvent_retains_driver_on_falsy rowFalsy localDrv rowFalsy []).2.2.2.2.2 (Or.inr rfl)⟩

end Momo
